import Mathlib

/-!
Shallow embedding of the authentication-and-authorization core of the
Computer-Students-Hub repository (Django application), covering:

* `users/middleware.py` — `SupabaseAuthenticationMiddleware`
  (`_get_user`, `_extract_token`, `_decode_token`, `_get_or_create_user`);
* `users/services/user_service.py` — `UserService.sync_from_supabase`;
* `users/services/role_service.py` — `RoleService.assign_role`,
  `RoleService.can_assign_role`;
* `users/permissions.py` — `IsOwnerOrAdmin`, `IsOwnerOrReadOnly`;
* `users/models.py` — `User`, `UserProfile`, `Role`, `UserRoleAssignment`,
  `User.has_role`;
* `core/constants.py` — `UserRole` and `BaseEnum.has_value` / `get_display`;
* `core/services/audit_service.py` — role-assignment audit emission.

The database is modelled as explicit state (lists of rows); Django ORM calls
(`get_or_create`, `save(update_fields=...)`, `filter(...).exists()`) become
pure list operations; Python exceptions become `Except` values.  Python
string operations used by the source (`str.split`, `str.startswith`,
truthiness of `None`/`''`) are embedded over `List Char`.
-/

deriving instance DecidableEq for Except

/-- Python `s.split(sep)` for a single-character separator: splits on every
occurrence of `sep` and keeps empty fragments, so the result always has at
least one element. -/
def pySplit (sep : Char) : List Char → List (List Char)
  | [] => [[]]
  | c :: cs =>
    let rest := pySplit sep cs
    if c = sep then [] :: rest
    else
      match rest with
      | [] => [[c]]
      | r :: rs => (c :: r) :: rs

/-- Python `s.startswith(pre)` over character lists. -/
def startsWith : List Char → List Char → Bool
  | [], _ => true
  | _ :: _, [] => false
  | c :: cs, d :: ds => c == d && startsWith cs ds

/-- Python truthiness of an optional string: `None` and `''` are falsy. -/
def pyTruthy : Option String → Bool
  | none => false
  | some s => s != ""

/-- Python `v or fallback` for an optional string `v` (used by
`display_name or email.split('@')[0]` in `sync_from_supabase`). -/
def pyOrStr (v : Option String) (fallback : String) : String :=
  match v with
  | none => fallback
  | some s => if s == "" then fallback else s

/-- Python `email.split('@')[0]`: the local part of an email address. -/
def localPart (email : String) : String :=
  String.mk ((pySplit '@' email.data).headD [])

/-- `core.constants.UserRole.values()`: the closed set of role names. -/
def roleValues : List String := ["guest", "student", "instructor", "admin"]

/-- `core.constants.BaseEnum.has_value` specialised to `UserRole`:
membership of a string in the closed role set. -/
def has_value (v : String) : Bool := roleValues.contains v

/-- `core.constants.BaseEnum.get_display` specialised to `UserRole`
(`item.name.replace('_', ' ').title()` on the four members). -/
def get_display (v : String) : String :=
  if v == "guest" then "Guest"
  else if v == "student" then "Student"
  else if v == "instructor" then "Instructor"
  else if v == "admin" then "Admin"
  else v

/-- A row of the `users` table (`users/models.py`, class `User`): local
identity synchronized from the external provider. -/
structure UserRec where
  id : Nat
  supabase_id : String
  email : String
  display_name : String
  is_active : Bool
  last_login : Option Int
deriving DecidableEq

/-- A row of the `user_profiles` table (`users/models.py`, class
`UserProfile`): one-to-one extension of a user, keyed by the user's id. -/
structure ProfileRec where
  user : Nat
  bio : String
  avatar_url : String
  location : String
  website : String
  github_username : String
  linkedin_url : String
  total_bookmarks : Nat
  total_contributions : Nat
  total_questions : Nat
  total_answers : Nat
  reputation_score : Int
deriving DecidableEq

/-- A row of the `roles` table (`users/models.py`, class `Role`), unique by
name. -/
structure RoleRec where
  name : String
  description : String
deriving DecidableEq

/-- A row of the `user_roles` table (`users/models.py`, class
`UserRoleAssignment`): links one user to one role, with provenance. -/
structure AssignmentRec where
  user : Nat
  role : String
  assigned_by : Option Nat
deriving DecidableEq

/-- An emitted audit event (`core/services/audit_service.py`,
`AuditService.log_role_assignment`): kind, affected user, role, actor. -/
structure AuditEvent where
  kind : String
  user : Nat
  role : String
  actor : Option Nat
deriving DecidableEq

/-- The persistent state the core reads and mutates: the user, profile,
role and role-assignment tables, the audit sink, and the id generator. -/
structure DB where
  users : List UserRec
  profiles : List ProfileRec
  roles : List RoleRec
  assignments : List AssignmentRec
  audit : List AuditEvent
  next_id : Nat
deriving DecidableEq

/-- `User.has_role` (`users/models.py`):
`self.user_roles.filter(role__name=role_name).exists()`. -/
def has_role (db : DB) (uid : Nat) (role_name : String) : Bool :=
  db.assignments.any (fun a => a.user == uid && a.role == role_name)

/-- `user.save(update_fields=...)`: write back one user row, keyed by id. -/
def setUser (db : DB) (u : UserRec) : DB :=
  { db with users := db.users.map (fun v => if v.id == u.id then u else v) }

/-- `profile.save(update_fields=...)`: write back one profile row, keyed by
its user id. -/
def setProfile (db : DB) (p : ProfileRec) : DB :=
  { db with profiles := db.profiles.map (fun q => if q.user == p.user then p else q) }

/-- The typed failures raised by the services (`core/exceptions.py`):
`ValidationError` and `PermissionDeniedError`. -/
inductive ServiceError
  | validationError (msg : String)
  | permissionDenied (msg : String)
deriving DecidableEq

/-- `RoleService.can_assign_role` (`users/services/role_service.py`):
only admins can assign roles; the role being assigned is ignored. -/
def can_assign_role (db : DB) (assigner : UserRec) (role_name : String) : Bool :=
  if !(has_role db assigner.id "admin") then false
  else true

/-- The body of `RoleService.assign_role` after validation and permission
checks have passed: role `get_or_create`, assignment `get_or_create`, and
audit emission only when the assignment row was actually created. -/
def assign_role_granted (db : DB) (user : UserRec) (role_name : String)
    (assigned_by : Option UserRec) : Except ServiceError (AssignmentRec × DB) :=
  let newRole : RoleRec := ⟨role_name, get_display role_name ++ " role"⟩
  let db1 : DB :=
    match db.roles.find? (fun r => r.name == role_name) with
    | some _ => db
    | none => { db with roles := db.roles ++ [newRole] }
  match db1.assignments.find? (fun a => a.user == user.id && a.role == role_name) with
  | some a => .ok (a, db1)
  | none =>
      let a : AssignmentRec := ⟨user.id, role_name, assigned_by.map (fun x => x.id)⟩
      let ev : AuditEvent := ⟨"role_assignment", user.id, role_name, assigned_by.map (fun x => x.id)⟩
      let db2 : DB := { db1 with assignments := db1.assignments ++ [a] }
      let db3 : DB := { db2 with audit := db2.audit ++ [ev] }
      .ok (a, db3)

/-- `RoleService.assign_role` (`users/services/role_service.py`): validate
the role name against the closed set, then, when an acting identity is
supplied, require it to pass `can_assign_role`; a `None` actor skips the
permission check; then grant idempotently. -/
def assign_role (db : DB) (user : UserRec) (role_name : String)
    (assigned_by : Option UserRec) : Except ServiceError (AssignmentRec × DB) :=
  if !(has_value role_name) then
    .error (.validationError ("Invalid role: " ++ role_name))
  else
    match assigned_by with
    | some actor =>
        if !(can_assign_role db actor role_name) then
          .error (.permissionDenied
            ("User " ++ actor.display_name ++ " cannot assign role " ++ role_name))
        else assign_role_granted db user role_name (some actor)
    | none => assign_role_granted db user role_name none

/-- `UserService.sync_from_supabase` (`users/services/user_service.py`):
`get_or_create` the user by `supabase_id` (defaults: claimed email and
`display_name or email.split('@')[0]`), update email and display name only
when they differ from the claims, `get_or_create` the profile, update the
avatar URL only when supplied and different, and on first creation assign
the default student role with no acting identity. -/
def sync_from_supabase (db : DB) (supabase_id : String) (email : String)
    (display_name : Option String) (avatar_url : Option String)
    (user_metadata : Option String) : Except ServiceError (UserRec × DB) :=
  let gc : UserRec × Bool × DB :=
    match db.users.find? (fun v => v.supabase_id == supabase_id) with
    | some u => (u, false, db)
    | none =>
        let u : UserRec :=
          { id := db.next_id, supabase_id := supabase_id, email := email,
            display_name := pyOrStr display_name (localPart email),
            is_active := true, last_login := none }
        (u, true, { db with users := db.users ++ [u], next_id := db.next_id + 1 })
  let user0 := gc.1
  let created := gc.2.1
  let dbA := gc.2.2
  let stepEmail : UserRec × DB :=
    if user0.email != email then
      let u := { user0 with email := email }
      (u, setUser dbA u)
    else (user0, dbA)
  let user1 := stepEmail.1
  let dbB := stepEmail.2
  let stepName : UserRec × DB :=
    match display_name with
    | some dn =>
        if dn != "" && user1.display_name != dn then
          let u := { user1 with display_name := dn }
          (u, setUser dbB u)
        else (user1, dbB)
    | none => (user1, dbB)
  let user2 := stepName.1
  let dbC := stepName.2
  let pgc : ProfileRec × DB :=
    match dbC.profiles.find? (fun q => q.user == user2.id) with
    | some p => (p, dbC)
    | none =>
        let p : ProfileRec :=
          { user := user2.id, bio := "", avatar_url := "", location := "",
            website := "", github_username := "", linkedin_url := "",
            total_bookmarks := 0, total_contributions := 0, total_questions := 0,
            total_answers := 0, reputation_score := 0 }
        (p, { dbC with profiles := dbC.profiles ++ [p] })
  let profile := pgc.1
  let dbD := pgc.2
  let dbE : DB :=
    match avatar_url with
    | some av =>
        if av != "" && profile.avatar_url != av then
          setProfile dbD { profile with avatar_url := av }
        else dbD
    | none => dbD
  if created then
    match assign_role dbE user2 "student" none with
    | .error e => .error e
    | .ok (_, dbF) => .ok (user2, dbF)
  else .ok (user2, dbE)

/-- The `user_metadata` claim map carried inside the token payload, as read
by `_get_or_create_user`: may carry a display name and an avatar URL. -/
structure Metadata where
  display_name : Option String
  avatar_url : Option String
deriving DecidableEq

/-- The decoded JWT claim set (`payload` in `_decode_token`): subject id,
email, expiry instant, and the optional metadata map. -/
structure Payload where
  sub : Option String
  email : Option String
  exp : Option Int
  user_metadata : Option Metadata
deriving DecidableEq

/-- The `AuthenticationFailed` exceptions raised inside the middleware,
distinguished exactly as the source distinguishes them, by message:
`invalidToken msg` covers `'Invalid token format'` and
`'Invalid token: ...'`, `expiredToken` is `'Token has expired'`, and
`invalidPayload` is `'Invalid token payload'`. -/
inductive AuthFailure
  | invalidToken (msg : String)
  | expiredToken
  | invalidPayload
deriving DecidableEq

/-- `SupabaseAuthenticationMiddleware._decode_token`
(`users/middleware.py`): split the token on `'.'` and fail with
`'Invalid token format'` unless there are exactly three segments; decode
the middle (payload) segment; fail with `'Token has expired'` when the
`exp` claim is truthy and in the past; never look at the other segments.
The parameter `b64json` stands for the Python standard-library composition
`json.loads(base64.urlsafe_b64decode(segment + padding))`, which is not
code of this repository: it yields the claim set, or `none` when the
library call raises (mapped by the source to `'Invalid token: ...'`). -/
def decode_token (b64json : String → Option Payload) (now : Int)
    (token : String) : Except AuthFailure Payload :=
  let parts := pySplit '.' token.data
  if parts.length != 3 then .error (.invalidToken "Invalid token format")
  else
    match b64json (String.mk (parts.getD 1 [])) with
    | none => .error (.invalidToken "Invalid token: decode error")
    | some payload =>
        match payload.exp with
        | some e => if e != 0 && e < now then .error .expiredToken else .ok payload
        | none => .ok payload

/-- `SupabaseAuthenticationMiddleware._extract_token`: return the word
after the first space of an `Authorization` header that starts with
`'Bearer '`, and `none` otherwise (a missing header reads as `''`). -/
def extract_token (auth_header : Option String) : Option String :=
  let h := (auth_header.getD "").data
  if !(startsWith "Bearer ".data h) then none
  else some (String.mk ((pySplit ' ' h).getD 1 []))

/-- Everything that can escape the decode-and-sync pipeline inside
`_get_user`: a typed `AuthenticationFailed`, a typed service failure from
the sync step, or any other unexpected exception. -/
inductive GateExc
  | authFailed (f : AuthFailure)
  | service (e : ServiceError)
  | other (msg : String)
deriving DecidableEq

/-- `SupabaseAuthenticationMiddleware._get_or_create_user`: reject a
payload whose subject id or email is missing or empty, otherwise sync the
claims into the local state and stamp `last_login`. -/
def get_or_create_user (db : DB) (now : Int) (payload : Payload) :
    Except GateExc (UserRec × DB) :=
  let supabase_id := payload.sub
  let email := payload.email
  let md := (payload.user_metadata).getD ⟨none, none⟩
  if !(pyTruthy supabase_id) || !(pyTruthy email) then
    .error (.authFailed .invalidPayload)
  else
    match sync_from_supabase db (supabase_id.getD "") (email.getD "")
        md.display_name md.avatar_url none with
    | .error e => .error (.service e)
    | .ok (user, db1) =>
        let user1 := { user with last_login := some now }
        .ok (user1, setUser db1 user1)

/-- What the gate attaches to the request context: a concrete user or the
`AnonymousUser` marker. -/
inductive AuthResult
  | user (u : UserRec)
  | anonymous
deriving DecidableEq

/-- The try/except skeleton of
`SupabaseAuthenticationMiddleware._get_user`: extract the token (`none` or
an empty token is anonymous), run the decode-and-sync pipeline, convert
every escaping exception — typed or not, hence the arbitrary exception
type `ε` — to the anonymous marker with the state untouched (the sync
transaction is atomic), and never raise. -/
def get_user_core {ε : Type} (db : DB) (extract : Except ε (Option String))
    (authenticate : String → Except ε (UserRec × DB)) : AuthResult × DB :=
  match extract with
  | .error _ => (.anonymous, db)
  | .ok none => (.anonymous, db)
  | .ok (some token) =>
      if token == "" then (.anonymous, db)
      else
        match authenticate token with
        | .error _ => (.anonymous, db)
        | .ok (u, db1) => (.user u, db1)

/-- `SupabaseAuthenticationMiddleware._get_user` with the concrete
extraction, decoding and sync steps plugged into the gate skeleton. -/
def get_user (b64json : String → Option Payload) (now : Int) (db : DB)
    (auth_header : Option String) : AuthResult × DB :=
  get_user_core db (.ok (extract_token auth_header))
    (fun token =>
      match decode_token b64json now token with
      | .error f => .error (GateExc.authFailed f)
      | .ok payload => get_or_create_user db now payload)

/-- The HTTP methods consulted by the permission classes. -/
inductive Method
  | get | head | options | post | put | patch | delete
deriving DecidableEq

/-- `rest_framework.permissions.SAFE_METHODS`: GET, HEAD, OPTIONS. -/
def SAFE_METHODS : List Method := [.get, .head, .options]

/-- A target object as seen by the ownership probe: each of the four
candidate owner attributes is either absent (`none`), present but null
(`some none`), or present and referencing a user id (`some (some id)`). -/
structure Obj where
  user : Option (Option Nat)
  author : Option (Option Nat)
  created_by : Option (Option Nat)
  owner : Option (Option Nat)
deriving DecidableEq

/-- The ownership probe shared by `IsOwnerOrAdmin.has_object_permission`
and `IsOwnerOrReadOnly.has_object_permission`: walk
`['user', 'author', 'created_by', 'owner']` and return the value of the
first attribute present, if any. -/
def firstOwnerField (obj : Obj) : Option (Option Nat) :=
  match obj.user with
  | some v => some v
  | none =>
      match obj.author with
      | some v => some v
      | none =>
          match obj.created_by with
          | some v => some v
          | none => obj.owner

/-- `IsOwnerOrAdmin.has_object_permission` (`users/permissions.py`):
admins pass unconditionally; otherwise the first present owner attribute
must equal the requesting user; with no owner attribute, deny. -/
def isOwnerOrAdmin_object (db : DB) (requester : UserRec) (obj : Obj) : Bool :=
  if has_role db requester.id "admin" then true
  else
    match firstOwnerField obj with
    | some owner => owner == some requester.id
    | none => false

/-- `IsOwnerOrReadOnly.has_object_permission` (`users/permissions.py`):
safe methods pass for everyone; writes require the first present owner
attribute to equal the requesting user (an anonymous requester never
equals an owner); with no owner attribute, deny.  There is no admin branch
in this class. -/
def isOwnerOrReadOnly_object (request_user : AuthResult) (method : Method)
    (obj : Obj) : Bool :=
  if SAFE_METHODS.contains method then true
  else
    match firstOwnerField obj with
    | some owner =>
        match request_user with
        | .user u => owner == some u.id
        | .anonymous => false
    | none => false

/-- Modelled from the spec: the spec's `ReadOnlyOrOwner(target)` predicate
word for word — "read operations always pass; write operations require
`OwnerOrAdmin`" — stated over the same state, for comparison with the
source's `IsOwnerOrReadOnly`. -/
def readOnlyOrOwner_spec (db : DB) (requester : UserRec) (method : Method)
    (obj : Obj) : Bool :=
  if SAFE_METHODS.contains method then true
  else isOwnerOrAdmin_object db requester obj

/-- The empty initial state: no rows, id generator at zero. -/
def emptyDB : DB := ⟨[], [], [], [], [], 0⟩

/-- A concrete stand-in for the standard-library payload codec used in
witnesses and counterexamples, mirroring what
`json.loads(base64.urlsafe_b64decode(...))` returns on three fixed
payload segments.  `"eyJleHAiOjB9"` is the base64url encoding of the JSON
text of a claim set whose `exp` is `0`. -/
def demoCodec (seg : String) : Option Payload :=
  if seg == "eyJzdWIiOiJzYi0xIiwiZW1haWwiOiJhQHguY29tIn0" then
    some ⟨some "sb-1", some "a@x.com", none, none⟩
  else if seg == "eyJleHAiOjB9" then
    some ⟨none, none, some 0, none⟩
  else if seg == "eyJleHAiOjF9" then
    some ⟨none, none, some 1, none⟩
  else none

/-! ## Helper lemmas -/

/-- Splitting a separator-free fragment yields the fragment alone. -/
theorem pySplit_of_not_mem (sep : Char) (l : List Char) (h : sep ∉ l) :
    pySplit sep l = [l] := by
  induction l with
  | nil => rfl
  | cons c cs ih =>
      have hc : ¬ c = sep := fun hce => h (hce ▸ List.mem_cons_self c cs)
      have hcs : sep ∉ cs := fun hm => h (List.mem_cons_of_mem _ hm)
      simp [pySplit, hc, ih hcs]

/-- Splitting peels off a separator-free prefix before the first separator. -/
theorem pySplit_append (sep : Char) (a rest : List Char) (h : sep ∉ a) :
    pySplit sep (a ++ sep :: rest) = a :: pySplit sep rest := by
  induction a with
  | nil => simp [pySplit]
  | cons c cs ih =>
      have hc : ¬ c = sep := fun hce => h (hce ▸ List.mem_cons_self c cs)
      have hcs : sep ∉ cs := fun hm => h (List.mem_cons_of_mem _ hm)
      have hne : pySplit sep (cs ++ sep :: rest) = cs :: pySplit sep rest := ih hcs
      simp [pySplit, hc, hne]

/-- A three-segment token built from separator-free pieces splits into
exactly those pieces. -/
theorem pySplit_three (h p s : List Char) (hh : '.' ∉ h) (hp : '.' ∉ p)
    (hs : '.' ∉ s) :
    pySplit '.' (h ++ '.' :: (p ++ '.' :: s)) = [h, p, s] := by
  rw [pySplit_append '.' h _ hh, pySplit_append '.' p _ hp,
    pySplit_of_not_mem '.' s hs]

/-- After writing back a user row keyed by the found user's id, the lookup
by subject id returns the written row. -/
theorem find?_setUser_users (l : List UserRec) (sid : String) (u0 u1 : UserRec)
    (h : l.find? (fun v => v.supabase_id == sid) = some u0)
    (hid : u1.id = u0.id) (hsid : u1.supabase_id = sid) :
    (l.map (fun v => if v.id == u1.id then u1 else v)).find?
      (fun v => v.supabase_id == sid) = some u1 := by
  induction l with
  | nil => simp at h
  | cons c cs ih =>
      rw [List.map_cons]
      by_cases hc : c.supabase_id = sid
      · rw [List.find?_cons_of_pos _ (by simp [hc])] at h
        have hcu : c = u0 := Option.some.inj h
        have hcid : (c.id == u1.id) = true := by simp [hcu, hid]
        rw [if_pos hcid]
        exact List.find?_cons_of_pos _ (by simp [hsid])
      · rw [List.find?_cons_of_neg _ (by simp [hc])] at h
        by_cases hcid : c.id = u1.id
        · rw [if_pos (by simp [hcid])]
          exact List.find?_cons_of_pos _ (by simp [hsid])
        · rw [if_neg (by simp [hcid])]
          rw [List.find?_cons_of_neg _ (by simp [hc])]
          exact ih h

/-- After writing back a profile row keyed by the same user id the lookup
used, the lookup returns the written row. -/
theorem find?_setProfile_profiles (l : List ProfileRec) (uid : Nat)
    (p0 p1 : ProfileRec) (h : l.find? (fun q => q.user == uid) = some p0)
    (hid : p1.user = uid) :
    (l.map (fun q => if q.user == p1.user then p1 else q)).find?
      (fun q => q.user == uid) = some p1 := by
  induction l with
  | nil => simp at h
  | cons c cs ih =>
      rw [List.map_cons]
      by_cases hc : c.user = uid
      · rw [if_pos (by simp [hc, hid])]
        exact List.find?_cons_of_pos _ (by simp [hid])
      · rw [List.find?_cons_of_neg _ (by simp [hc])] at h
        rw [if_neg (by simp [hid, hc])]
        rw [List.find?_cons_of_neg _ (by simp [hc])]
        exact ih h

/-! ## Claim theorems -/

/-- C4: `assign_role` validates in order: a role name outside the closed
set fails with `InvalidRole` regardless of the acting identity; a role
name inside the set with a non-admin acting identity fails with
`PermissionDenied`; a `None` acting identity bypasses the permission check
and the assignment succeeds. -/
theorem assign_role_validation_order (db : DB) (user : UserRec)
    (role_name : String) (actor : Option UserRec) :
    (has_value role_name = false →
      assign_role db user role_name actor =
        .error (.validationError ("Invalid role: " ++ role_name))) ∧
    (∀ a, has_value role_name = true → has_role db a.id "admin" = false →
      assign_role db user role_name (some a) =
        .error (.permissionDenied
          ("User " ++ a.display_name ++ " cannot assign role " ++ role_name))) ∧
    (has_value role_name = true →
      ∃ asg db1, assign_role db user role_name none = .ok (asg, db1)) := by
  refine ⟨fun h => ?_, fun a hv hadm => ?_, fun hv => ?_⟩
  · cases actor <;> simp [assign_role, h]
  · simp [assign_role, hv, can_assign_role, hadm]
  · simp only [assign_role, hv, Bool.not_true, Bool.false_eq_true, if_false]
    unfold assign_role_granted
    cases hf : ((match db.roles.find? (fun r => r.name == role_name) with
        | some _ => db
        | none =>
            { db with roles := db.roles ++ [⟨role_name, get_display role_name ++ " role"⟩] }) :
          DB).assignments.find? (fun a => a.user == user.id && a.role == role_name) with
    | none => simp [hf]
    | some a => simp [hf]

/-- C4 witness: a student acting identity cannot grant the admin role. -/
theorem assign_role_validation_order_witness :
    assign_role
        ⟨[⟨1, "sb-s", "s@x.com", "Stu", true, none⟩], [], [],
          [⟨1, "student", none⟩], [], 2⟩
        ⟨1, "sb-s", "s@x.com", "Stu", true, none⟩ "admin"
        (some ⟨1, "sb-s", "s@x.com", "Stu", true, none⟩) =
      .error (.permissionDenied "User Stu cannot assign role admin") :=
  (assign_role_validation_order
      ⟨[⟨1, "sb-s", "s@x.com", "Stu", true, none⟩], [], [],
        [⟨1, "student", none⟩], [], 2⟩
      ⟨1, "sb-s", "s@x.com", "Stu", true, none⟩ "admin"
      (some ⟨1, "sb-s", "s@x.com", "Stu", true, none⟩)).2.1
    ⟨1, "sb-s", "s@x.com", "Stu", true, none⟩ (by decide) (by decide)

/-- C9: `IsOwnerOrAdmin.has_object_permission` grants every admin
regardless of the target; a non-admin passes exactly when the first
present owner attribute references the requester, so any other non-admin
identity is denied; and a target with no owner attribute at all is denied
(fail-closed). -/
theorem isOwnerOrAdmin_characterization (db : DB) (u : UserRec) (obj : Obj) :
    (has_role db u.id "admin" = true → isOwnerOrAdmin_object db u obj = true) ∧
    (has_role db u.id "admin" = false →
      (isOwnerOrAdmin_object db u obj = true ↔
        firstOwnerField obj = some (some u.id))) ∧
    (has_role db u.id "admin" = false → obj.user = none → obj.author = none →
      obj.created_by = none → obj.owner = none →
      isOwnerOrAdmin_object db u obj = false) := by
  refine ⟨fun h => ?_, fun h => ?_, fun h h1 h2 h3 h4 => ?_⟩
  · simp [isOwnerOrAdmin_object, h]
  · simp only [isOwnerOrAdmin_object, h, Bool.false_eq_true, if_false]
    cases hf : firstOwnerField obj with
    | none => simp
    | some w => simp
  · simp [isOwnerOrAdmin_object, h, firstOwnerField, h1, h2, h3, h4]

/-- C9 witness: with one admin, one student and one targeted object owned
by a third id, the admin passes, the owner passes, the stranger fails, and
an ownerless object fails. -/
theorem isOwnerOrAdmin_characterization_witness :
    isOwnerOrAdmin_object
        ⟨[], [], [], [⟨1, "admin", none⟩], [], 0⟩
        ⟨1, "sb-a", "a@x.com", "Adm", true, none⟩
        ⟨some (some 2), none, none, none⟩ = true ∧
    (isOwnerOrAdmin_object
        ⟨[], [], [], [⟨1, "admin", none⟩], [], 0⟩
        ⟨2, "sb-b", "b@x.com", "Stu", true, none⟩
        ⟨some (some 2), none, none, none⟩ = true ↔
      firstOwnerField ⟨some (some 2), none, none, none⟩ = some (some 2)) ∧
    isOwnerOrAdmin_object
        ⟨[], [], [], [⟨1, "admin", none⟩], [], 0⟩
        ⟨3, "sb-c", "c@x.com", "Oth", true, none⟩
        ⟨none, none, none, none⟩ = false :=
  ⟨(isOwnerOrAdmin_characterization
      ⟨[], [], [], [⟨1, "admin", none⟩], [], 0⟩
      ⟨1, "sb-a", "a@x.com", "Adm", true, none⟩
      ⟨some (some 2), none, none, none⟩).1 (by decide),
   (isOwnerOrAdmin_characterization
      ⟨[], [], [], [⟨1, "admin", none⟩], [], 0⟩
      ⟨2, "sb-b", "b@x.com", "Stu", true, none⟩
      ⟨some (some 2), none, none, none⟩).2.1 (by decide),
   (isOwnerOrAdmin_characterization
      ⟨[], [], [], [⟨1, "admin", none⟩], [], 0⟩
      ⟨3, "sb-c", "c@x.com", "Oth", true, none⟩
      ⟨none, none, none, none⟩).2.2 (by decide) rfl rfl rfl rfl⟩

/-- C10: for a non-admin requester, both ownership probes consult only the
first attribute present in the order `user`, `author`, `created_by`,
`owner`: whenever that first present attribute references someone other
than the requester, the check denies — regardless of what any later
attribute holds. -/
theorem ownership_probe_first_field_only (db : DB) (u : UserRec) (obj : Obj)
    (m : Method) (w : Option Nat) (hadm : has_role db u.id "admin" = false)
    (hm : SAFE_METHODS.contains m = false) :
    (obj.user = some w → w ≠ some u.id →
      isOwnerOrAdmin_object db u obj = false ∧
      isOwnerOrReadOnly_object (.user u) m obj = false) ∧
    (obj.user = none → obj.author = some w → w ≠ some u.id →
      isOwnerOrAdmin_object db u obj = false ∧
      isOwnerOrReadOnly_object (.user u) m obj = false) ∧
    (obj.user = none → obj.author = none → obj.created_by = some w →
      w ≠ some u.id →
      isOwnerOrAdmin_object db u obj = false ∧
      isOwnerOrReadOnly_object (.user u) m obj = false) := by
  refine ⟨fun h1 hw => ?_, fun h1 h2 hw => ?_, fun h1 h2 h3 hw => ?_⟩ <;>
    simp_all [isOwnerOrAdmin_object, isOwnerOrReadOnly_object, firstOwnerField]

/-- C10 witness: an object whose `user` field names id 9 while its
`author` field names the requester id 2 is denied for the non-admin
requester on both probes. -/
theorem ownership_probe_first_field_only_witness :
    isOwnerOrAdmin_object emptyDB ⟨2, "sb-b", "b@x.com", "Stu", true, none⟩
        ⟨some (some 9), some (some 2), none, none⟩ = false ∧
    isOwnerOrReadOnly_object (.user ⟨2, "sb-b", "b@x.com", "Stu", true, none⟩)
        .post ⟨some (some 9), some (some 2), none, none⟩ = false :=
  (ownership_probe_first_field_only emptyDB
      ⟨2, "sb-b", "b@x.com", "Stu", true, none⟩
      ⟨some (some 9), some (some 2), none, none⟩ .post (some 9)
      (by decide) (by decide)).1 rfl (by decide)

/-- C5 counterexample: an identity holding the admin role that does not
own the target satisfies `OwnerOrAdmin`, yet `IsOwnerOrReadOnly` denies
its write — so write access is not equivalent to `OwnerOrAdmin` and an
admin non-owner may not write. -/
theorem isOwnerOrReadOnly_admin_counterexample :
    has_role ⟨[], [], [], [⟨1, "admin", none⟩], [], 0⟩ 1 "admin" = true ∧
    isOwnerOrAdmin_object ⟨[], [], [], [⟨1, "admin", none⟩], [], 0⟩
        ⟨1, "sb-a", "a@x.com", "Adm", true, none⟩
        ⟨some (some 2), none, none, none⟩ = true ∧
    isOwnerOrReadOnly_object (.user ⟨1, "sb-a", "a@x.com", "Adm", true, none⟩)
        .post ⟨some (some 2), none, none, none⟩ = false ∧
    readOnlyOrOwner_spec ⟨[], [], [], [⟨1, "admin", none⟩], [], 0⟩
        ⟨1, "sb-a", "a@x.com", "Adm", true, none⟩ .post
        ⟨some (some 2), none, none, none⟩ = true := by
  decide

/-- C5 (amended): `IsOwnerOrReadOnly` lets every safe-method operation
pass for any identity and target, and lets a write pass exactly when the
requester is a concrete user referenced by the first present owner
attribute — ownership only, with no admin override. -/
theorem isOwnerOrReadOnly_characterization (r : AuthResult) (m : Method)
    (obj : Obj) :
    (SAFE_METHODS.contains m = true → isOwnerOrReadOnly_object r m obj = true) ∧
    (SAFE_METHODS.contains m = false →
      (isOwnerOrReadOnly_object r m obj = true ↔
        ∃ u, r = .user u ∧ firstOwnerField obj = some (some u.id))) := by
  refine ⟨fun h => ?_, fun h => ?_⟩
  · unfold isOwnerOrReadOnly_object
    rw [if_pos h]
  · simp only [isOwnerOrReadOnly_object, h, Bool.false_eq_true, if_false]
    cases hf : firstOwnerField obj with
    | none => simp
    | some w =>
        cases r with
        | anonymous => simp
        | user u => simp

/-- C5 witness: an anonymous read passes; the owner's write passes; a
stranger's write fails. -/
theorem isOwnerOrReadOnly_characterization_witness :
    isOwnerOrReadOnly_object .anonymous .get
        ⟨some (some 2), none, none, none⟩ = true ∧
    (isOwnerOrReadOnly_object (.user ⟨2, "sb-b", "b@x.com", "Stu", true, none⟩)
        .put ⟨some (some 2), none, none, none⟩ = true ↔
      ∃ u, AuthResult.user ⟨2, "sb-b", "b@x.com", "Stu", true, none⟩ =
          AuthResult.user u ∧
        firstOwnerField ⟨some (some 2), none, none, none⟩ = some (some u.id)) :=
  ⟨(isOwnerOrReadOnly_characterization .anonymous .get
      ⟨some (some 2), none, none, none⟩).1 (by decide),
   (isOwnerOrReadOnly_characterization
      (.user ⟨2, "sb-b", "b@x.com", "Stu", true, none⟩) .put
      ⟨some (some 2), none, none, none⟩).2 (by decide)⟩

/-- C3: the gate skeleton of `_get_user` is total — for every state, every
extraction outcome and every decode-and-sync pipeline over an arbitrary
exception type, it returns either a concrete user or the anonymous marker
with the state untouched, and any exception escaping the pipeline yields
the anonymous marker with the state untouched. -/
theorem gate_fail_safe {ε : Type} (db : DB) (extract : Except ε (Option String))
    (authenticate : String → Except ε (UserRec × DB)) :
    (get_user_core db extract authenticate = (.anonymous, db) ∨
      ∃ u db1, get_user_core db extract authenticate = (.user u, db1)) ∧
    (∀ t e, extract = .ok (some t) → authenticate t = .error e →
      get_user_core db extract authenticate = (.anonymous, db)) := by
  constructor
  · unfold get_user_core
    cases extract with
    | error e => exact Or.inl rfl
    | ok o =>
        cases o with
        | none => exact Or.inl rfl
        | some t =>
            by_cases ht : t = ""
            · simp [ht]
            · cases ha : authenticate t with
              | error e => simp [ht, ha]
              | ok r => exact Or.inr ⟨r.1, r.2, by simp [ht, ha]⟩
  · intro t e hex ha
    subst hex
    unfold get_user_core
    by_cases ht : t = ""
    · simp [ht]
    · simp [ht, ha]

/-- C3 witness: an injected unexpected exception in the pipeline leaves
the request anonymous with the state untouched. -/
theorem gate_fail_safe_witness :
    get_user_core emptyDB (Except.ok (some "tok"))
        (fun _ => Except.error (GateExc.other "boom")) = (.anonymous, emptyDB) :=
  (gate_fail_safe emptyDB (Except.ok (some "tok"))
      (fun _ => Except.error (GateExc.other "boom"))).2 "tok"
    (GateExc.other "boom") rfl rfl

/-- C8: whenever the bearer token of a request fails to decode — expired,
malformed, or otherwise invalid — the gate produces exactly the same
outcome as for a request with no Authorization header at all: the
anonymous marker and an untouched state. -/
theorem gate_indistinguishable (codec : String → Option Payload) (now : Int)
    (db : DB) (header : Option String) (token : String) (f : AuthFailure)
    (hex : extract_token header = some token)
    (hdec : decode_token codec now token = .error f) :
    get_user codec now db header = get_user codec now db none ∧
    get_user codec now db header = (.anonymous, db) := by
  have hnone : get_user codec now db none = (.anonymous, db) := rfl
  have hsome : get_user codec now db header = (.anonymous, db) := by
    unfold get_user get_user_core
    rw [hex]
    by_cases ht : token = ""
    · simp [ht]
    · simp [ht, hdec]
  exact ⟨hsome.trans hnone.symm, hsome⟩

/-- C8 witness: a request bearing an expired token and a request with no
header both come out anonymous with the same state. -/
theorem gate_indistinguishable_witness :
    get_user demoCodec 1000 emptyDB (some "Bearer hh.eyJleHAiOjF9.ss") =
      get_user demoCodec 1000 emptyDB none ∧
    get_user demoCodec 1000 emptyDB (some "Bearer hh.eyJleHAiOjF9.ss") =
      (.anonymous, emptyDB) :=
  gate_indistinguishable demoCodec 1000 emptyDB
    (some "Bearer hh.eyJleHAiOjF9.ss") "hh.eyJleHAiOjF9.ss"
    .expiredToken (by decide) (by decide)

/-- C6 counterexample: the token `"hh.eyJleHAiOjB9.ss"` is structurally
valid and its payload (the base64url of a claim set with `exp` equal to
`0`) carries an expiry instant in the past at time `1000`, yet the decoder
returns the payload instead of failing with `ExpiredToken`: the Python
truthiness guard `if exp and ...` skips the check when `exp` is `0`. -/
theorem decode_exp_zero_counterexample :
    (pySplit '.' "hh.eyJleHAiOjB9.ss".data).length = 3 ∧
    demoCodec "eyJleHAiOjB9" = some ⟨none, none, some 0, none⟩ ∧
    (0 : Int) < 1000 ∧
    decode_token demoCodec 1000 "hh.eyJleHAiOjB9.ss" ≠
      .error .expiredToken ∧
    decode_token demoCodec 1000 "hh.eyJleHAiOjB9.ss" =
      .ok ⟨none, none, some 0, none⟩ := by
  decide

/-- C6 (amended): for every codec, decoding fails with the malformed-token
failure `InvalidToken` whenever the input is not exactly three
dot-separated segments, and fails with the distinct failure `ExpiredToken`
for every structurally valid token whose payload decodes with a nonzero
`exp` instant in the past (an `exp` of exactly `0` is skipped by the
source's truthiness guard). -/
theorem decode_token_failures (codec : String → Option Payload) (now : Int)
    (token : String) :
    ((pySplit '.' token.data).length ≠ 3 →
      decode_token codec now token =
        .error (.invalidToken "Invalid token format")) ∧
    (∀ p e, (pySplit '.' token.data).length = 3 →
      codec (String.mk ((pySplit '.' token.data).getD 1 [])) = some p →
      p.exp = some e → e ≠ 0 → e < now →
      decode_token codec now token = .error .expiredToken) := by
  constructor
  · intro h
    unfold decode_token
    rw [if_pos (by simpa using h)]
  · intro p e h3 hc he hz hlt
    unfold decode_token
    rw [if_neg (by simp [h3])]
    rw [hc]
    simp only [he]
    rw [if_pos (by simp [hz, hlt])]

/-- C6 witness: a two-segment token is rejected as malformed, and a
three-segment token whose payload is the base64url of a claim set with
`exp` equal to `1` is rejected as expired at time `1000`. -/
theorem decode_token_failures_witness :
    decode_token demoCodec 1000 "onlytwo.parts" =
      .error (.invalidToken "Invalid token format") ∧
    decode_token demoCodec 1000 "hh.eyJleHAiOjF9.ss" =
      .error .expiredToken :=
  ⟨(decode_token_failures demoCodec 1000 "onlytwo.parts").1 (by decide),
   (decode_token_failures demoCodec 1000 "hh.eyJleHAiOjF9.ss").2
     ⟨none, none, some 1, none⟩ 1 (by decide) (by decide) rfl
     (by decide) (by decide)⟩

/-- C1: the decoder's outcome depends only on the middle (payload)
segment — the header and signature segments are never consulted, so a
token whose signature cannot verify decodes exactly like a correctly
signed one; concretely, a three-segment token with a forged signature and
a decodable, unexpired payload decodes to its claims, and the gate then
resolves and syncs an identity from it. -/
theorem token_signature_never_verified :
    (∀ (codec : String → Option Payload) (now : Int)
        (hd sig hd2 sig2 pl : String),
      '.' ∉ hd.data → '.' ∉ sig.data → '.' ∉ hd2.data → '.' ∉ sig2.data →
      '.' ∉ pl.data →
      decode_token codec now (hd ++ "." ++ pl ++ "." ++ sig) =
        decode_token codec now (hd2 ++ "." ++ pl ++ "." ++ sig2)) ∧
    decode_token demoCodec 1000
        "hh.eyJzdWIiOiJzYi0xIiwiZW1haWwiOiJhQHguY29tIn0.forged-signature" =
      .ok ⟨some "sb-1", some "a@x.com", none, none⟩ ∧
    (get_user demoCodec 1000 emptyDB
        (some "Bearer hh.eyJzdWIiOiJzYi0xIiwiZW1haWwiOiJhQHguY29tIn0.forged-signature")).1 =
      .user ⟨0, "sb-1", "a@x.com", "a", true, some 1000⟩ := by
  refine ⟨?_, by decide, by decide⟩
  intro codec now hd sig hd2 sig2 pl hh hs hh2 hs2 hp
  unfold decode_token
  have e1 : (hd ++ "." ++ pl ++ "." ++ sig).data
      = hd.data ++ '.' :: (pl.data ++ '.' :: sig.data) := by
    simp [String.data_append]
  have e2 : (hd2 ++ "." ++ pl ++ "." ++ sig2).data
      = hd2.data ++ '.' :: (pl.data ++ '.' :: sig2.data) := by
    simp [String.data_append]
  rw [e1, e2, pySplit_three _ _ _ hh hp hs, pySplit_three _ _ _ hh2 hp hs2]
  simp

/-- C1 witness: the same payload decodes identically under an honest
signature and a forged one. -/
theorem token_signature_never_verified_witness :
    decode_token demoCodec 1000
        ("hh" ++ "." ++ "eyJzdWIiOiJzYi0xIiwiZW1haWwiOiJhQHguY29tIn0" ++ "." ++
          "honest-signature") =
      decode_token demoCodec 1000
        ("h2" ++ "." ++ "eyJzdWIiOiJzYi0xIiwiZW1haWwiOiJhQHguY29tIn0" ++ "." ++
          "forged-signature") :=
  token_signature_never_verified.1 demoCodec 1000 "hh" "honest-signature"
    "h2" "forged-signature" "eyJzdWIiOiJzYi0xIiwiZW1haWwiOiJhQHguY29tIn0"
    (by decide) (by decide) (by decide) (by decide) (by decide)

/-- The user row created by the sync's `get_or_create` defaults. -/
def syncNewUser (uid : Nat) (sid email : String) (dn : Option String) : UserRec :=
  ⟨uid, sid, email, pyOrStr dn (localPart email), true, none⟩

/-- The profile row created with the model's defaults. -/
def defaultProfile (uid : Nat) : ProfileRec :=
  ⟨uid, "", "", "", "", "", "", 0, 0, 0, 0, 0⟩

/-- The profile row as it stands after a first sync: freshly created, then
avatar-updated when a non-empty avatar URL claim was supplied. -/
def syncNewProfile (uid : Nat) (av : Option String) : ProfileRec :=
  match av with
  | some a =>
      if a != "" then { defaultProfile uid with avatar_url := a }
      else defaultProfile uid
  | none => defaultProfile uid

/-- The role table as it stands after the default-role grant's
`get_or_create`. -/
def syncRolesAfter (roles : List RoleRec) : List RoleRec :=
  match roles.find? (fun r => r.name == "student") with
  | some _ => roles
  | none => roles ++ [⟨"student", get_display "student" ++ " role"⟩]

/-- A freshly defaulted display name never triggers the display-name
update. -/
theorem display_noop (d lp : String) :
    (d != "" && pyOrStr (some d) lp != d) = false := by
  by_cases hd : d = "" <;> simp [pyOrStr, hd]

/-- The avatar-update condition on a fresh (empty) stored avatar reduces
to non-emptiness of the claim. -/
theorem avatar_cond (a : String) : (a != "" && ("" : String) != a) = (a != "") := by
  by_cases ha : a = ""
  · simp [ha]
  · simp [ha, Ne.symm ha]

/-- Writing back a profile keyed by a user id that no stored profile has
leaves the profile table unchanged. -/
theorem map_setProfile_of_none (l : List ProfileRec) (uid : Nat)
    (p1 : ProfileRec) (h : l.find? (fun q => q.user == uid) = none)
    (hid : p1.user = uid) :
    l.map (fun q => if q.user == p1.user then p1 else q) = l := by
  induction l with
  | nil => rfl
  | cons c cs ih =>
      by_cases hc : c.user = uid
      · rw [List.find?_cons_of_pos _ (by simp [hc])] at h
        exact absurd h (by simp)
      · rw [List.find?_cons_of_neg _ (by simp [hc])] at h
        rw [List.map_cons, if_neg (by simp [hid, hc]), ih h]

/-- Variant of `map_setProfile_of_none` in the propositional form the
simplifier produces. -/
theorem map_setProfile_eq_of_none (l : List ProfileRec) (uid : Nat)
    (p1 : ProfileRec) (h : l.find? (fun q => q.user == uid) = none) :
    (l.map (fun q => if q.user = uid then p1 else q)) = l := by
  induction l with
  | nil => rfl
  | cons c cs ih =>
      by_cases hc : c.user = uid
      · rw [List.find?_cons_of_pos _ (by simp [hc])] at h
        exact absurd h (by simp)
      · rw [List.find?_cons_of_neg _ (by simp [hc])] at h
        rw [List.map_cons, if_neg hc, ih h]

/-- Creation path of `sync_from_supabase`: when the subject id is unseen
(and the fresh id has no profile or assignment rows), the sync creates
exactly one user row, one profile row, one student assignment and one
audit event, and returns the created user. -/
theorem sync_creates (db : DB) (sid email : String) (dn av : Option String)
    (md : Option String)
    (hu : db.users.find? (fun v => v.supabase_id == sid) = none)
    (hp : db.profiles.find? (fun q => q.user == db.next_id) = none)
    (ha : db.assignments.find?
        (fun a => a.user == db.next_id && a.role == "student") = none) :
    sync_from_supabase db sid email dn av md =
      .ok (syncNewUser db.next_id sid email dn,
        { users := db.users ++ [syncNewUser db.next_id sid email dn],
          profiles := db.profiles ++ [syncNewProfile db.next_id av],
          roles := syncRolesAfter db.roles,
          assignments := db.assignments ++ [⟨db.next_id, "student", none⟩],
          audit := db.audit ++ [⟨"role_assignment", db.next_id, "student", none⟩],
          next_id := db.next_id + 1 }) := by
  unfold sync_from_supabase
  rw [hu]
  rcases av with _ | a
  · rcases dn with _ | d <;>
      cases hr : db.roles.find? (fun r => r.name == "student") <;>
        simp [assign_role, assign_role_granted, has_value, roleValues,
          setProfile, setUser, syncNewUser, syncNewProfile, defaultProfile,
          syncRolesAfter, display_noop, hp, ha, hr]
  · by_cases hae : a = ""
    · rcases dn with _ | d <;>
        cases hr : db.roles.find? (fun r => r.name == "student") <;>
          simp [assign_role, assign_role_granted, has_value, roleValues,
            setProfile, setUser, syncNewUser, syncNewProfile, defaultProfile,
            syncRolesAfter, display_noop, hp, ha, hr, hae]
    · rcases dn with _ | d <;>
        cases hr : db.roles.find? (fun r => r.name == "student") <;>
          simp [assign_role, assign_role_granted, has_value, roleValues,
            setProfile, setUser, syncNewUser, syncNewProfile, defaultProfile,
            syncRolesAfter, display_noop, hp, ha, hr, hae, Ne.symm hae,
            map_setProfile_eq_of_none, List.map_append]

/-- Found path of `sync_from_supabase` with nothing to update: when the
user exists, the claimed email equals the stored one, the display-name
claim is absent, empty or equal, the profile exists, and the avatar claim
is absent, empty or equal, the sync returns the stored user and leaves
the state exactly as it was. -/
theorem sync_finds_noop (db : DB) (sid email : String) (dn av : Option String)
    (md : Option String) (u : UserRec) (p : ProfileRec)
    (hu : db.users.find? (fun v => v.supabase_id == sid) = some u)
    (hemail : u.email = email)
    (hdn : ∀ d, dn = some d → d = "" ∨ u.display_name = d)
    (hp : db.profiles.find? (fun q => q.user == u.id) = some p)
    (hav : ∀ a, av = some a → a = "" ∨ p.avatar_url = a) :
    sync_from_supabase db sid email dn av md = .ok (u, db) := by
  unfold sync_from_supabase
  rw [hu]
  have he : (u.email != email) = false := by simp [hemail]
  rcases dn with _ | d
  · rcases av with _ | a
    · simp [he, hp]
    · rcases hav a rfl with hae | hav2
      · simp [he, hp, hae]
      · simp [he, hp, hav2]
  · rcases hdn d rfl with hde | hdd
    · rcases av with _ | a
      · simp [he, hp, hde]
      · rcases hav a rfl with hae | hav2
        · simp [he, hp, hde, hae]
        · simp [he, hp, hde, hav2]
    · rcases av with _ | a
      · simp [he, hp, hdd]
      · rcases hav a rfl with hae | hav2
        · simp [he, hp, hdd, hae]
        · simp [he, hp, hdd, hav2]

/-- A filtered append has exactly one element when the prefix contributes
nothing and the appended element matches. -/
theorem filter_append_singleton_length {α : Type} (l : List α) (p : α → Bool)
    (x : α) (hl : ∀ y ∈ l, p y = false) (hx : p x = true) :
    ((l ++ [x]).filter p).length = 1 := by
  rw [List.filter_append]
  have hnil : l.filter p = [] := by
    induction l with
    | nil => rfl
    | cons c cs ih =>
        rw [List.filter_cons, if_neg (by simp [hl c (List.mem_cons_self c cs)])]
        exact ih (fun y hy => hl y (List.mem_cons_of_mem _ hy))
  simp [hnil, hx]

/-- The fresh profile belongs to the fresh user id. -/
theorem syncNewProfile_user (uid : Nat) (av : Option String) :
    (syncNewProfile uid av).user = uid := by
  rcases av with _ | a
  · rfl
  · by_cases hae : a = "" <;> simp [syncNewProfile, defaultProfile, hae]

/-- C2: syncing an unseen (subjectId, email) twice with identical claims
yields a state with exactly one Identity row, one Profile row and one
default-role (student) RoleAssignment row for that subject, and the audit
trail has grown by exactly the one role-assignment event of the first
call: the second call returns the same user and the very same state,
creating no row and emitting no further audit event. -/
theorem sync_idempotent (db : DB) (sid email : String) (dn av : Option String)
    (md : Option String)
    (hsid : ∀ v ∈ db.users, v.supabase_id ≠ sid)
    (hpro : ∀ q ∈ db.profiles, q.user ≠ db.next_id)
    (hass : ∀ a ∈ db.assignments, a.user ≠ db.next_id) :
    ∃ u db1,
      sync_from_supabase db sid email dn av md = .ok (u, db1) ∧
      sync_from_supabase db1 sid email dn av md = .ok (u, db1) ∧
      (db1.users.filter (fun v => v.supabase_id == sid)).length = 1 ∧
      (db1.profiles.filter (fun q => q.user == u.id)).length = 1 ∧
      (db1.assignments.filter
        (fun a => a.user == u.id && a.role == "student")).length = 1 ∧
      db1.audit = db.audit ++ [⟨"role_assignment", u.id, "student", none⟩] := by
  have hu : db.users.find? (fun v => v.supabase_id == sid) = none :=
    List.find?_eq_none.mpr (fun v hv => by simp [hsid v hv])
  have hp : db.profiles.find? (fun q => q.user == db.next_id) = none :=
    List.find?_eq_none.mpr (fun q hq => by simp [hpro q hq])
  have ha : db.assignments.find?
      (fun a => a.user == db.next_id && a.role == "student") = none :=
    List.find?_eq_none.mpr (fun a haa => by simp [hass a haa])
  refine ⟨syncNewUser db.next_id sid email dn, _,
    sync_creates db sid email dn av md hu hp ha, ?_, ?_, ?_, ?_, ?_⟩
  · refine sync_finds_noop _ sid email dn av md
      (syncNewUser db.next_id sid email dn) (syncNewProfile db.next_id av)
      ?_ rfl ?_ ?_ ?_
    · rw [List.find?_append, hu]
      simp [syncNewUser]
    · intro d hd
      subst hd
      by_cases hde : d = ""
      · exact Or.inl hde
      · exact Or.inr (by simp [syncNewUser, pyOrStr, hde])
    · rw [List.find?_append]
      have hp2 : (db.profiles).find?
          (fun q => q.user == (syncNewUser db.next_id sid email dn).id) = none := hp
      rw [hp2]
      simp [syncNewProfile_user, syncNewUser]
    · intro a haa
      subst haa
      by_cases hae : a = ""
      · exact Or.inl hae
      · exact Or.inr (by simp [syncNewProfile, defaultProfile, hae])
  · exact filter_append_singleton_length db.users _ _
      (fun y hy => by simp [hsid y hy]) (by simp [syncNewUser])
  · exact filter_append_singleton_length db.profiles _ _
      (fun y hy => by
        have hne := hpro y hy
        simp [syncNewUser, hne])
      (by simp [syncNewProfile_user, syncNewUser])
  · exact filter_append_singleton_length db.assignments _ _
      (fun y hy => by
        have hne := hass y hy
        simp [syncNewUser, hne])
      (by simp [syncNewUser])
  · rfl

/-- C2 witness: the concrete scenario from the spec — subject `sb-1`,
email `a@x.com`, synced twice from the empty state. -/
theorem sync_idempotent_witness :
    ∃ u db1,
      sync_from_supabase emptyDB "sb-1" "a@x.com" none none none =
        .ok (u, db1) ∧
      sync_from_supabase db1 "sb-1" "a@x.com" none none none =
        .ok (u, db1) ∧
      (db1.users.filter (fun v => v.supabase_id == "sb-1")).length = 1 ∧
      (db1.profiles.filter (fun q => q.user == u.id)).length = 1 ∧
      (db1.assignments.filter
        (fun a => a.user == u.id && a.role == "student")).length = 1 ∧
      db1.audit = emptyDB.audit ++ [⟨"role_assignment", u.id, "student", none⟩] :=
  sync_idempotent emptyDB "sb-1" "a@x.com" none none none
    (by simp [emptyDB]) (by simp [emptyDB]) (by simp [emptyDB])


/-- The user row as it stands after a sync that found it: email set to the
claimed email, display name changed only when a non-empty claim differs,
every other field untouched. -/
def syncUpdUser (u0 : UserRec) (email : String) (dn : Option String) : UserRec :=
  { u0 with
    email := email
    display_name :=
      (match dn with
       | some d => if d != "" && u0.display_name != d then d else u0.display_name
       | none => u0.display_name) }

/-- The user phase of the found path of `sync_from_supabase`, exactly as
the source performs it: a targeted email write-back when the claimed email
differs, then a targeted display-name write-back when a non-empty claimed
display name differs; returns the user table and the updated row. -/
def usersAfter (users : List UserRec) (u0 : UserRec) (email : String)
    (dn : Option String) : List UserRec × UserRec :=
  let u1 := if u0.email != email then { u0 with email := email } else u0
  let l1 := if u0.email != email then
      users.map (fun v => if v.id == u1.id then u1 else v)
    else users
  match dn with
  | some d =>
      if d != "" && u1.display_name != d then
        let u2 := { u1 with display_name := d }
        (l1.map (fun v => if v.id == u2.id then u2 else v), u2)
      else (l1, u1)
  | none => (l1, u1)

/-- The profile phase of the found path of `sync_from_supabase`: a
targeted avatar write-back when a non-empty claimed avatar URL differs;
returns the profile table and the resulting row. -/
def profilesAfter (profiles : List ProfileRec) (p0 : ProfileRec)
    (av : Option String) : List ProfileRec × ProfileRec :=
  match av with
  | some a =>
      if a != "" && p0.avatar_url != a then
        let p1 := { p0 with avatar_url := a }
        (profiles.map (fun q => if q.user == p1.user then p1 else q), p1)
      else (profiles, p0)
  | none => (profiles, p0)

/-- Writing back a user row keyed by the id of the row the subject-id
lookup found makes the lookup return the written row. -/
theorem find?_map_user_keyed (l : List UserRec) (sid : String) (uid : Nat)
    (u0 u1 : UserRec) (h : l.find? (fun v => v.supabase_id == sid) = some u0)
    (hid : u0.id = uid) (hsid : u1.supabase_id = sid) :
    (l.map (fun v => if v.id == uid then u1 else v)).find?
      (fun v => v.supabase_id == sid) = some u1 := by
  induction l with
  | nil => simp at h
  | cons c cs ih =>
      rw [List.map_cons]
      by_cases hcs : c.supabase_id = sid
      · rw [List.find?_cons_of_pos _ (by simp [hcs])] at h
        have hc0 : c = u0 := Option.some.inj h
        rw [if_pos (by simp [hc0, hid])]
        exact List.find?_cons_of_pos _ (by simp [hsid])
      · rw [List.find?_cons_of_neg _ (by simp [hcs])] at h
        by_cases hcid : c.id = uid
        · rw [if_pos (by simp [hcid])]
          exact List.find?_cons_of_pos _ (by simp [hsid])
        · rw [if_neg (by simp [hcid]), List.find?_cons_of_neg _ (by simp [hcs])]
          exact ih h

/-- Writing back a profile row keyed by the user id the lookup used makes
the lookup return the written row. -/
theorem find?_map_profile_keyed (l : List ProfileRec) (uid : Nat)
    (p0 p1 : ProfileRec) (h : l.find? (fun q => q.user == uid) = some p0)
    (h1 : p1.user = uid) :
    (l.map (fun q => if q.user == uid then p1 else q)).find?
      (fun q => q.user == uid) = some p1 := by
  induction l with
  | nil => simp at h
  | cons c cs ih =>
      rw [List.map_cons]
      by_cases hc : c.user = uid
      · rw [if_pos (by simp [hc])]
        exact List.find?_cons_of_pos _ (by simp [h1])
      · rw [List.find?_cons_of_neg _ (by simp [hc])] at h
        rw [if_neg (by simp [hc]), List.find?_cons_of_neg _ (by simp [hc])]
        exact ih h

/-- The user phase never changes the number of rows. -/
theorem usersAfter_length (l : List UserRec) (u0 : UserRec) (email : String)
    (dn : Option String) : (usersAfter l u0 email dn).1.length = l.length := by
  unfold usersAfter
  rcases dn with _ | d
  · by_cases hEm : (u0.email != email) = true <;> simp [hEm]
  · by_cases hEm : (u0.email != email) = true <;>
      by_cases hdc : (d != "" && u0.display_name != d) = true <;>
        simp [hEm, hdc]

/-- The profile phase never changes the number of rows. -/
theorem profilesAfter_length (l : List ProfileRec) (p0 : ProfileRec)
    (av : Option String) : (profilesAfter l p0 av).1.length = l.length := by
  unfold profilesAfter
  rcases av with _ | a
  · rfl
  · by_cases hac : (a != "" && p0.avatar_url != a) = true <;> simp [hac]

/-- After the user phase, the subject-id lookup returns exactly the
updated row. -/
theorem usersAfter_find? (l : List UserRec) (u0 : UserRec) (email : String)
    (dn : Option String) (sid : String)
    (hu : l.find? (fun v => v.supabase_id == sid) = some u0) :
    (usersAfter l u0 email dn).1.find? (fun v => v.supabase_id == sid) =
      some (usersAfter l u0 email dn).2 := by
  have hsid : u0.supabase_id = sid := by simpa using List.find?_some hu
  unfold usersAfter
  by_cases hEm : (u0.email != email) = true
  · have h1 : (l.map (fun v => if v.id == u0.id then
          ({ u0 with email := email } : UserRec) else v)).find?
        (fun v => v.supabase_id == sid) = some { u0 with email := email } :=
      find?_map_user_keyed l sid u0.id u0 _ hu rfl (by simpa using hsid)
    rcases dn with _ | d
    · simpa [hEm] using h1
    · by_cases hdc : (d != "" && u0.display_name != d) = true
      · simp only [hEm, if_true]
        simpa [hdc] using
          find?_map_user_keyed _ sid u0.id { u0 with email := email }
            { u0 with email := email, display_name := d } h1 rfl
            (by simpa using hsid)
      · simpa [hEm, hdc] using h1
  · rcases dn with _ | d
    · simpa [hEm] using hu
    · by_cases hdc : (d != "" && u0.display_name != d) = true
      · simp only [hEm, Bool.false_eq_true, if_false]
        simpa [hdc] using
          find?_map_user_keyed l sid u0.id u0
            { u0 with display_name := d } hu rfl (by simpa using hsid)
      · simpa [hEm, hdc] using hu

/-- After the profile phase, the lookup by the owning user id returns
exactly the resulting row. -/
theorem profilesAfter_find? (l : List ProfileRec) (p0 : ProfileRec)
    (av : Option String) (uid : Nat)
    (hp : l.find? (fun q => q.user == uid) = some p0) (hpu : p0.user = uid) :
    (profilesAfter l p0 av).1.find? (fun q => q.user == uid) =
      some (profilesAfter l p0 av).2 := by
  unfold profilesAfter
  rcases av with _ | a
  · simpa using hp
  · by_cases hac : (a != "" && p0.avatar_url != a) = true
    · simp only [hac, if_true]
      have := find?_map_profile_keyed l uid p0 { p0 with avatar_url := a } hp
        (by simpa using hpu)
      simpa [hpu] using this
    · simpa [hac] using hp

/-- The row returned by the user phase is the targeted update of the found
row. -/
theorem usersAfter_snd (l : List UserRec) (u0 : UserRec) (email : String)
    (dn : Option String) :
    (usersAfter l u0 email dn).2 = syncUpdUser u0 email dn := by
  unfold usersAfter syncUpdUser
  by_cases hEm : (u0.email != email) = true
  · rcases dn with _ | d
    · simp [hEm]
    · by_cases hdc : (d != "" && u0.display_name != d) = true <;>
        simp [hEm, hdc]
  · have hEmf : (u0.email != email) = false := by simpa using hEm
    have he : u0.email = email := by simpa using hEm
    rcases dn with _ | d
    · rw [← he]
      simp [hEmf]
    · rw [← he]
      by_cases hdc : (d != "" && u0.display_name != d) = true <;>
        simp [hEmf, hdc]

/-- The profile row as it stands after a sync that found it: avatar URL
changed only when a non-empty claim differs, every other field
untouched. -/
def syncUpdProfile (p0 : ProfileRec) (av : Option String) : ProfileRec :=
  { p0 with
    avatar_url :=
      (match av with
       | some a => if a != "" && p0.avatar_url != a then a else p0.avatar_url
       | none => p0.avatar_url) }

/-- The row returned by the profile phase is the targeted update of the
found row. -/
theorem profilesAfter_snd (l : List ProfileRec) (p0 : ProfileRec)
    (av : Option String) :
    (profilesAfter l p0 av).2 = syncUpdProfile p0 av := by
  unfold profilesAfter syncUpdProfile
  rcases av with _ | a
  · rfl
  · by_cases hac : (a != "" && p0.avatar_url != a) = true <;> simp [hac]

/-- Found path of `sync_from_supabase`: when the subject id is present and
its profile exists, the sync is exactly the user phase followed by the
profile phase — targeted in-place updates — and nothing else: the role
and assignment tables, the audit trail and the id generator are
untouched, and no row is created. -/
theorem sync_found (db : DB) (sid email : String) (dn av : Option String)
    (md : Option String) (u0 : UserRec) (p0 : ProfileRec)
    (hu : db.users.find? (fun v => v.supabase_id == sid) = some u0)
    (hp : db.profiles.find? (fun q => q.user == u0.id) = some p0) :
    sync_from_supabase db sid email dn av md =
      .ok ((usersAfter db.users u0 email dn).2,
        { users := (usersAfter db.users u0 email dn).1
          profiles := (profilesAfter db.profiles p0 av).1
          roles := db.roles
          assignments := db.assignments
          audit := db.audit
          next_id := db.next_id }) := by
  unfold sync_from_supabase usersAfter profilesAfter
  rw [hu]
  by_cases hEm : (u0.email != email) = true
  · rcases dn with _ | d
    · rcases av with _ | a
      · simp [setUser, setProfile, hEm, hp]
      · by_cases hac : (a != "" && p0.avatar_url != a) = true <;>
          simp [setUser, setProfile, hEm, hp, hac]
    · by_cases hdc : (d != "" && u0.display_name != d) = true
      · rcases av with _ | a
        · simp [setUser, setProfile, hEm, hp, hdc]
        · by_cases hac : (a != "" && p0.avatar_url != a) = true <;>
            simp [setUser, setProfile, hEm, hp, hdc, hac]
      · rcases av with _ | a
        · simp [setUser, setProfile, hEm, hp, hdc]
        · by_cases hac : (a != "" && p0.avatar_url != a) = true <;>
            simp [setUser, setProfile, hEm, hp, hdc, hac]
  · rcases dn with _ | d
    · rcases av with _ | a
      · simp [setUser, setProfile, hEm, hp]
      · by_cases hac : (a != "" && p0.avatar_url != a) = true <;>
          simp [setUser, setProfile, hEm, hp, hac]
    · by_cases hdc : (d != "" && u0.display_name != d) = true
      · rcases av with _ | a
        · simp [setUser, setProfile, hEm, hp, hdc]
        · by_cases hac : (a != "" && p0.avatar_url != a) = true <;>
            simp [setUser, setProfile, hEm, hp, hdc, hac]
      · rcases av with _ | a
        · simp [setUser, setProfile, hEm, hp, hdc]
        · by_cases hac : (a != "" && p0.avatar_url != a) = true <;>
            simp [setUser, setProfile, hEm, hp, hdc, hac]

/-- C7: syncing an existing subject id updates the stored row in place —
no second Identity row is created, the subject-id lookup still finds
exactly the synced user — with the subject id itself never modified and
only the claimed-and-different fields written: email takes the claimed
value, display name changes only for a non-empty differing claim, the
avatar URL only for a non-empty differing claim, and every other field of
the Identity and its Profile, the role and assignment tables, the audit
trail and the id generator are all left unchanged. -/
theorem sync_update_in_place (db : DB) (sid email : String)
    (dn av : Option String) (md : Option String) (u0 : UserRec)
    (p0 : ProfileRec)
    (hu : db.users.find? (fun v => v.supabase_id == sid) = some u0)
    (hp : db.profiles.find? (fun q => q.user == u0.id) = some p0) :
    ∃ u1 db1,
      sync_from_supabase db sid email dn av md = .ok (u1, db1) ∧
      db1.users.length = db.users.length ∧
      db1.users.find? (fun v => v.supabase_id == sid) = some u1 ∧
      u1.id = u0.id ∧
      u1.supabase_id = u0.supabase_id ∧
      u1.email = email ∧
      u1.display_name = (match dn with
        | some d => if d != "" && u0.display_name != d then d else u0.display_name
        | none => u0.display_name) ∧
      u1.is_active = u0.is_active ∧
      u1.last_login = u0.last_login ∧
      db1.profiles.length = db.profiles.length ∧
      (∃ p1, db1.profiles.find? (fun q => q.user == u0.id) = some p1 ∧
        p1.avatar_url = (match av with
          | some a => if a != "" && p0.avatar_url != a then a else p0.avatar_url
          | none => p0.avatar_url) ∧
        p1.user = p0.user ∧ p1.bio = p0.bio ∧ p1.location = p0.location ∧
        p1.website = p0.website ∧ p1.github_username = p0.github_username ∧
        p1.linkedin_url = p0.linkedin_url ∧
        p1.total_bookmarks = p0.total_bookmarks ∧
        p1.total_contributions = p0.total_contributions ∧
        p1.total_questions = p0.total_questions ∧
        p1.total_answers = p0.total_answers ∧
        p1.reputation_score = p0.reputation_score) ∧
      db1.roles = db.roles ∧
      db1.assignments = db.assignments ∧
      db1.audit = db.audit ∧
      db1.next_id = db.next_id := by
  have hpu : p0.user = u0.id := by simpa using List.find?_some hp
  refine ⟨(usersAfter db.users u0 email dn).2, _,
    sync_found db sid email dn av md u0 p0 hu hp,
    usersAfter_length db.users u0 email dn,
    usersAfter_find? db.users u0 email dn sid hu,
    ?_, ?_, ?_, ?_, ?_, ?_,
    profilesAfter_length db.profiles p0 av,
    ⟨(profilesAfter db.profiles p0 av).2,
      profilesAfter_find? db.profiles p0 av u0.id hp hpu,
      ?_, ?_, ?_, ?_, ?_, ?_, ?_, ?_, ?_, ?_, ?_, ?_⟩,
    rfl, rfl, rfl, rfl⟩ <;>
  · first
      | (rw [usersAfter_snd db.users u0 email dn]; rfl)
      | (rw [profilesAfter_snd db.profiles p0 av]; rfl)

/-- C7 witness: an existing identity `sb-1` re-synced with a new email
`b@x.com` is updated in place. -/
theorem sync_update_in_place_witness :
    ∃ u1 db1,
      sync_from_supabase
          ⟨[⟨0, "sb-1", "a@x.com", "a", true, none⟩],
            [⟨0, "bio0", "", "loc0", "", "", "", 0, 0, 0, 0, 0⟩],
            [⟨"student", "Student role"⟩], [⟨0, "student", none⟩],
            [⟨"role_assignment", 0, "student", none⟩], 1⟩
          "sb-1" "b@x.com" none none none = .ok (u1, db1) ∧
      db1.users.length = 1 ∧
      db1.users.find? (fun v => v.supabase_id == "sb-1") = some u1 ∧
      u1.id = 0 ∧
      u1.supabase_id = "sb-1" ∧
      u1.email = "b@x.com" ∧
      u1.display_name = "a" ∧
      u1.is_active = true ∧
      u1.last_login = none ∧
      db1.profiles.length = 1 ∧
      db1.assignments = [⟨0, "student", none⟩] ∧
      db1.audit = [⟨"role_assignment", 0, "student", none⟩] := by
  obtain ⟨u1, db1, h1, h2, h3, h4, h5, h6, h7, h8, h9, h10, _, _, h13, h14, _⟩ :=
    sync_update_in_place
      ⟨[⟨0, "sb-1", "a@x.com", "a", true, none⟩],
        [⟨0, "bio0", "", "loc0", "", "", "", 0, 0, 0, 0, 0⟩],
        [⟨"student", "Student role"⟩], [⟨0, "student", none⟩],
        [⟨"role_assignment", 0, "student", none⟩], 1⟩
      "sb-1" "b@x.com" none none none
      ⟨0, "sb-1", "a@x.com", "a", true, none⟩
      ⟨0, "bio0", "", "loc0", "", "", "", 0, 0, 0, 0, 0⟩ (by decide) (by decide)
  exact ⟨u1, db1, h1, h2, h3, h4, h5, h6, h7, h8, h9, h10, h13, h14⟩
